import Mathlib

/-!
Shallow embedding of the attendance registration and reporting engine of
`ProyectoPF/Proyecto.py` (class `SistemaRegistroAsistencia`).  The SQLite
`asistencia` table is modelled as a list of rows plus the next AUTOINCREMENT
identifier; the reference tables read by `cargar_datos` are modelled as the
lists of rows their SELECT statements return.  Dates are the ISO-8601 strings
produced by `date.isoformat()` (SQLite compares TEXT columns, and the code
stores and queries dates as text).  The boolean "attended" field is the
literal text "Sí" / "No", exactly as stored by the program.
-/

/-- One row of the `asistencia` table (schema created in `cr.py` and in
`registrar_asistencia`): id, profesor, materia, carrera (nullable), fecha
(ISO-8601 text), asistio ("Sí" or "No"). -/
structure Registro where
  id : Nat
  profesor : String
  materia : String
  carrera : Option String
  fecha : String
  asistio : String
deriving DecidableEq

/-- The mutable state owned by the store: the rows of `asistencia` and the
next AUTOINCREMENT id (assigned once, never reused). -/
structure BaseDatos where
  filas : List Registro
  siguienteId : Nat
deriving DecidableEq

/-- Python `dict.get`: the value of the first (and, after `buildDict`, only)
entry with the given key, `none` when absent. -/
def lookupDict (d : List (String × String)) (k : String) : Option String :=
  (d.find? (fun par => par.1 = k)).map Prod.snd

/-- One step of the Python dict comprehension `{row[0]: row[1] for row in rows}`:
assigning to an existing key overwrites its value in place, a new key is
appended at the end. -/
def dictInsert (d : List (String × String)) (k v : String) : List (String × String) :=
  if k ∈ d.map Prod.fst then
    d.map (fun par => if par.1 = k then (k, v) else par)
  else
    d ++ [(k, v)]

/-- The dict comprehension over the rows returned by the
`profesor_materia JOIN profesores JOIN materias` query in `cargar_datos`:
iterate over the rows in order, later rows with the same professor
overwriting earlier ones. -/
def buildDict (filasTabla : List (String × String)) : List (String × String) :=
  filasTabla.foldl (fun acc fila => dictInsert acc fila.1 fila.2) []

/-- The in-memory roster snapshot returned by `cargar_datos`. -/
structure Datos where
  profesores : List String
  materias : List String
  carreras : List String
  profesor_materia : List (String × String)
deriving DecidableEq

/-- `cargar_datos`: builds the professor→subject dict from the join query's
rows, takes the professor list as `list(profesor_materia.keys())`, and reads
the subject and program name lists directly from their tables. -/
def cargar_datos (filasProfesorMateria : List (String × String))
    (filasMaterias filasCarreras : List String) : Datos :=
  let profesor_materia := buildDict filasProfesorMateria
  { profesores := profesor_materia.map Prod.fst
    materias := filasMaterias
    carreras := filasCarreras
    profesor_materia := profesor_materia }

/-- The two validation failures of `registrar_asistencia`: the professor is
not in the roster, or the roster assigns the professor a different subject. -/
inductive ErrorValidacion where
  | UnknownProfessor
  | SubjectMismatch
deriving DecidableEq

/-- The INSERT performed by `registrar_asistencia` once validation passes:
append one row with the next AUTOINCREMENT id and advance the id. -/
def insertarAsistencia (bd : BaseDatos) (profesor materia : String)
    (carrera : Option String) (fecha asistio : String) : BaseDatos :=
  { filas := bd.filas ++
      [{ id := bd.siguienteId, profesor := profesor, materia := materia,
         carrera := carrera, fecha := fecha, asistio := asistio }]
    siguienteId := bd.siguienteId + 1 }

/-- `registrar_asistencia(nombre_profesor, materia, carrera, fecha, asistio)`:
if the professor is not the sentinel "Otro maestro", reject an unknown
professor, then reject a subject different from the one the roster dict
assigns; otherwise (or for the sentinel) insert the row and commit.  The
function returns the resulting store state together with the outcome: the
error paths return before touching the store. -/
def registrar_asistencia (datos : Datos) (bd : BaseDatos) (nombre_profesor : String)
    (materia : String) (carrera : Option String) (fecha : String) (asistio : String) :
    BaseDatos × Except ErrorValidacion Unit :=
  if nombre_profesor ≠ "Otro maestro" then
    if nombre_profesor ∉ datos.profesores then
      (bd, Except.error ErrorValidacion.UnknownProfessor)
    else if lookupDict datos.profesor_materia nombre_profesor ≠ some materia then
      (bd, Except.error ErrorValidacion.SubjectMismatch)
    else
      (insertarAsistencia bd nombre_profesor materia carrera fecha asistio, Except.ok ())
  else
    (insertarAsistencia bd nombre_profesor materia carrera fecha asistio, Except.ok ())

/-- `eliminar_registros`: `DELETE FROM asistencia` removes every row; the
AUTOINCREMENT sequence is not reset. -/
def eliminar_registros (bd : BaseDatos) : BaseDatos :=
  { filas := [], siguienteId := bd.siguienteId }

/-- The distinct values of a list in order of first occurrence: the set of
group keys produced by SQL `GROUP BY` (output order of the groups is not part
of any claim, so first-occurrence order stands in for SQLite's). -/
def clavesUnicas {α : Type} [DecidableEq α] (l : List α) : List α :=
  l.foldl (fun acc a => if a ∈ acc then acc else acc ++ [a]) []

/-- The `GROUP BY carrera, profesor, materia` key of a row. -/
def claveDe (r : Registro) : Option String × String × String :=
  (r.carrera, r.profesor, r.materia)

/-- One aggregate row of the per-professor / per-subject report queries:
`SELECT carrera, profesor, materia, COUNT(*), SUM(asistio='Sí'), SUM(asistio='No')`. -/
structure FilaReporte where
  carrera : Option String
  profesor : String
  materia : String
  total_clases : Nat
  asistencias : Nat
  inasistencias : Nat
deriving DecidableEq

/-- The aggregate row of one `GROUP BY carrera, profesor, materia` group:
COUNT(*) of the group's rows and the two CASE-sums counting "Sí" and "No". -/
def filaDeGrupo (filtradas : List Registro) (clave : Option String × String × String) :
    FilaReporte :=
  let grupo := filtradas.filter (fun r => claveDe r = clave)
  { carrera := clave.1, profesor := clave.2.1, materia := clave.2.2,
    total_clases := grupo.length,
    asistencias := grupo.countP (fun r => r.asistio = "Sí"),
    inasistencias := grupo.countP (fun r => r.asistio = "No") }

/-- The `GROUP BY carrera, profesor, materia` aggregation applied to the
WHERE-filtered rows: one output row per distinct key. -/
def agregarGrupos (filtradas : List Registro) : List FilaReporte :=
  (clavesUnicas (filtradas.map claveDe)).map (filaDeGrupo filtradas)

/-- `WHERE profesor = ? AND fecha BETWEEN ? AND ?`: SQLite TEXT comparison on
the ISO date strings, inclusive on both ends. -/
def filtroProfesor (filas : List Registro) (profesor inicio fin : String) : List Registro :=
  filas.filter (fun r => r.profesor = profesor ∧ inicio ≤ r.fecha ∧ r.fecha ≤ fin)

/-- `WHERE materia = ? AND fecha BETWEEN ? AND ?`. -/
def filtroMateria (filas : List Registro) (materia inicio fin : String) : List Registro :=
  filas.filter (fun r => r.materia = materia ∧ inicio ≤ r.fecha ∧ r.fecha ≤ fin)

/-- `query_by_professor`: the aggregate query run by the "Reporte por
Profesor" tab of `mostrar_reportes_detallados`. -/
def reportePorProfesor (filas : List Registro) (profesor inicio fin : String) :
    List FilaReporte :=
  agregarGrupos (filtroProfesor filas profesor inicio fin)

/-- `query_by_subject`: the aggregate query run by the "Reporte por Materia"
tab of `mostrar_reportes_detallados`. -/
def reportePorMateria (filas : List Registro) (materia inicio fin : String) :
    List FilaReporte :=
  agregarGrupos (filtroMateria filas materia inicio fin)

/-- SQLite `ROUND(x, 2)` on the (always nonnegative here) compliance rate:
round to the nearest hundredth, halves away from zero. -/
def round2 (x : ℚ) : ℚ := ((⌊x * 100 + 1 / 2⌋ : ℤ) : ℚ) / 100

/-- `query_global_by_program`: `SELECT carrera, COUNT(*),
ROUND(SUM(CASE WHEN asistio='Sí' THEN 1 ELSE 0 END) * 100.0 / COUNT(*), 2)
FROM asistencia GROUP BY carrera` from the "Estadísticas Globales" tab. -/
def estadisticasGlobales (filas : List Registro) : List (Option String × Nat × ℚ) :=
  (clavesUnicas (filas.map (fun r => r.carrera))).map (fun c =>
    let grupo := filas.filter (fun r => r.carrera = c)
    (c, grupo.length,
      round2 ((grupo.countP (fun r => r.asistio = "Sí") : ℚ) * 100 / (grupo.length : ℚ))))

/-- Outcome of one PDF-export button press: either `generar_reporte_pdf` was
called and wrote the named file, or the query was empty and only a warning
message was shown (no file written). -/
inductive ResultadoExportacion (α : Type) where
  | generado (nombre : String) (filas : List α)
  | sinDatos
deriving DecidableEq

/-- The `if registros: generar_reporte_pdf(...) else: st.warning(...)` gate
shared by all three report tabs. -/
def exportarReporte {α : Type} (registros : List α) (nombre : String) :
    ResultadoExportacion α :=
  if registros.isEmpty then ResultadoExportacion.sinDatos
  else ResultadoExportacion.generado nombre registros

/-- The "Generar Reporte PDF por Profesor" button: run the per-professor
query, then export it or warn. -/
def reporteProfesorPDF (bd : BaseDatos) (profesor inicio fin : String) :
    ResultadoExportacion FilaReporte :=
  exportarReporte (reportePorProfesor bd.filas profesor inicio fin)
    "reporte_asistencia_profesor.pdf"

/-- The "Generar Reporte PDF por Materia" button. -/
def reporteMateriaPDF (bd : BaseDatos) (materia inicio fin : String) :
    ResultadoExportacion FilaReporte :=
  exportarReporte (reportePorMateria bd.filas materia inicio fin)
    "reporte_asistencia_materia.pdf"

/-- The "Generar Reporte Global PDF por Carrera" button. -/
def reporteGlobalPDF (bd : BaseDatos) : ResultadoExportacion (Option String × Nat × ℚ) :=
  exportarReporte (estadisticasGlobales bd.filas) "reporte_global_carrera.pdf"

/-- The value the last table row with the given key assigns to it (`none`
when the key never occurs): the value a Python dict build keeps. -/
def ultimaAsignacion : List (String × String) → String → Option String
  | [], _ => none
  | fila :: resto, p =>
    match ultimaAsignacion resto p with
    | some s => some s
    | none => if fila.1 = p then some fila.2 else none

/-- The aggregate row a report returns for a given group key, projected to
its three counters; `none` when the report has no row for that key. -/
def filaDeClave (filasRep : List FilaReporte) (clave : Option String × String × String) :
    Option (Nat × Nat × Nat) :=
  (filasRep.find? (fun f => (f.carrera, f.profesor, f.materia) = clave)).map
    (fun f => (f.total_clases, f.asistencias, f.inasistencias))

/-- The counters a report returns for a key, reading an absent row as all
zeroes (the group does not exist, so it has no classes). -/
def contarFila (filasRep : List FilaReporte) (clave : Option String × String × String) :
    Nat × Nat × Nat :=
  (filaDeClave filasRep clave).getD (0, 0, 0)

theorem lookupDict_cons (par : String × String) (resto : List (String × String)) (p : String) :
    lookupDict (par :: resto) p = if par.1 = p then some par.2 else lookupDict resto p := by
  rw [lookupDict, List.find?_cons]
  by_cases h : par.1 = p <;> simp [h, lookupDict]

theorem find?_eq_ite_mem {α : Type} [DecidableEq α] (l : List α) (a : α) :
    l.find? (fun x => x = a) = if a ∈ l then some a else none := by
  induction l with
  | nil => simp
  | cons b resto ih =>
    rw [List.find?_cons]
    by_cases hba : b = a
    · subst hba; simp
    · have hab : ¬ a = b := fun h => hba h.symm
      simp [hba, hab, ih]

theorem mem_clavesUnicas_foldl {α : Type} [DecidableEq α] :
    ∀ (l acc : List α) (x : α),
      x ∈ l.foldl (fun acc a => if a ∈ acc then acc else acc ++ [a]) acc ↔
        x ∈ acc ∨ x ∈ l
  | [], acc, x => by simp
  | a :: resto, acc, x => by
    rw [List.foldl_cons, mem_clavesUnicas_foldl]
    by_cases ha : a ∈ acc <;> by_cases hx : x = a <;>
      simp [ha, hx, List.mem_append, List.mem_cons]

theorem mem_clavesUnicas {α : Type} [DecidableEq α] (l : List α) (a : α) :
    a ∈ clavesUnicas l ↔ a ∈ l := by
  rw [clavesUnicas, mem_clavesUnicas_foldl]
  simp

theorem lookupDict_reemplaza (d : List (String × String)) (k v p : String) :
    lookupDict (d.map (fun par => if par.1 = k then (k, v) else par)) p =
      if p = k then (if k ∈ d.map Prod.fst then some v else none)
      else lookupDict d p := by
  induction d with
  | nil => by_cases h : p = k <;> simp [lookupDict, h]
  | cons par resto ih =>
    rw [List.map_cons, lookupDict_cons, lookupDict_cons]
    by_cases h1 : par.1 = k
    · by_cases h2 : p = k
      · simp [h1, h2]
      · have : ¬ k = p := fun h => h2 h.symm
        simp [h1, h2, this, ih]
    · by_cases h2 : p = k
      · have hpar : ¬ par.1 = p := fun h => h1 (h.trans h2)
        have hkpar : ¬ k = par.1 := fun h => h1 h.symm
        subst h2
        by_cases hmem : p ∈ List.map Prod.fst resto <;>
          simp [h1, hpar, hkpar, hmem, ih, List.mem_cons]
      · by_cases h3 : par.1 = p <;> simp [h1, h2, h3, ih]

theorem lookupDict_dictInsert (d : List (String × String)) (k v p : String) :
    lookupDict (dictInsert d k v) p = if p = k then some v else lookupDict d p := by
  rw [dictInsert]
  by_cases hk : k ∈ d.map Prod.fst
  · rw [if_pos hk, lookupDict_reemplaza, if_pos hk]
  · rw [if_neg hk, lookupDict, List.find?_append]
    by_cases hpk : p = k
    · subst hpk
      have hdn : List.find? (fun par => par.1 = p) d = none := by
        rw [List.find?_eq_none]
        intro par hpar hcontra
        exact hk (List.mem_map.mpr ⟨par, hpar, of_decide_eq_true hcontra⟩)
      rw [hdn, Option.none_or]
      simp [List.find?_cons]
    · have hkp : ¬ k = p := fun h => hpk h.symm
      have hsolo : List.find? (fun par => par.1 = p) [(k, v)] = none := by
        simp [List.find?_cons, hkp]
      rw [hsolo, Option.or_none, if_neg hpk, lookupDict]

theorem lookupDict_foldl (filasTabla : List (String × String))
    (d : List (String × String)) (p : String) :
    lookupDict (filasTabla.foldl (fun acc fila => dictInsert acc fila.1 fila.2) d) p =
      match ultimaAsignacion filasTabla p with
      | some s => some s
      | none => lookupDict d p := by
  induction filasTabla generalizing d with
  | nil => simp [ultimaAsignacion]
  | cons fila resto ih =>
    rw [List.foldl_cons, ih, ultimaAsignacion]
    cases h : ultimaAsignacion resto p
    · rw [lookupDict_dictInsert]
      by_cases hp : fila.1 = p
      · rw [if_pos hp, if_pos hp.symm]
      · rw [if_neg hp, if_neg (fun h => hp h.symm)]
    · rfl

theorem lookupDict_buildDict (filasTabla : List (String × String)) (p : String) :
    lookupDict (buildDict filasTabla) p = ultimaAsignacion filasTabla p := by
  rw [buildDict, lookupDict_foldl]
  cases ultimaAsignacion filasTabla p <;> simp [lookupDict]

theorem find?_map_filaDeGrupo (filtradas : List Registro)
    (claves : List (Option String × String × String))
    (clave : Option String × String × String) :
    (claves.map (filaDeGrupo filtradas)).find?
        (fun f => (f.carrera, f.profesor, f.materia) = clave) =
      (claves.find? (fun x => x = clave)).map (filaDeGrupo filtradas) := by
  induction claves with
  | nil => rfl
  | cons c resto ih =>
    rw [List.map_cons, List.find?_cons, List.find?_cons]
    by_cases hc : c = clave
    · subst hc; simp [filaDeGrupo]
    · simp [filaDeGrupo, Prod.mk.eta, hc, ih]

theorem filaDeClave_agregarGrupos (filtradas : List Registro)
    (clave : Option String × String × String) :
    filaDeClave (agregarGrupos filtradas) clave =
      if clave ∈ filtradas.map claveDe then
        some ((filtradas.filter (fun r => claveDe r = clave)).length,
          (filtradas.filter (fun r => claveDe r = clave)).countP (fun r => r.asistio = "Sí"),
          (filtradas.filter (fun r => claveDe r = clave)).countP (fun r => r.asistio = "No"))
      else none := by
  rw [filaDeClave, agregarGrupos, find?_map_filaDeGrupo, find?_eq_ite_mem]
  by_cases hmem : clave ∈ filtradas.map claveDe
  · rw [if_pos ((mem_clavesUnicas _ _).mpr hmem), if_pos hmem]
    rfl
  · rw [if_neg (fun h => hmem ((mem_clavesUnicas _ _).mp h)), if_neg hmem]
    rfl

theorem contarFila_agregarGrupos (filtradas : List Registro)
    (clave : Option String × String × String) :
    contarFila (agregarGrupos filtradas) clave =
      ((filtradas.filter (fun r => claveDe r = clave)).length,
       (filtradas.filter (fun r => claveDe r = clave)).countP (fun r => r.asistio = "Sí"),
       (filtradas.filter (fun r => claveDe r = clave)).countP (fun r => r.asistio = "No")) := by
  rw [contarFila, filaDeClave_agregarGrupos]
  by_cases hmem : clave ∈ filtradas.map claveDe
  · rw [if_pos hmem]; rfl
  · rw [if_neg hmem]
    have hvacio : filtradas.filter (fun r => claveDe r = clave) = [] := by
      rw [List.filter_eq_nil_iff]
      intro r hr hcontra
      exact hmem (List.mem_map.mpr ⟨r, hr, of_decide_eq_true hcontra⟩)
    rw [hvacio]
    rfl

theorem mem_keys_iff_lookup (d : List (String × String)) (p : String) :
    p ∈ d.map Prod.fst ↔ (lookupDict d p).isSome := by
  rw [lookupDict, Option.isSome_map', List.find?_isSome, List.mem_map]
  constructor
  · rintro ⟨par, hpar, hfst⟩
    exact ⟨par, hpar, by simp [hfst]⟩
  · rintro ⟨par, hpar, hfst⟩
    exact ⟨par, hpar, of_decide_eq_true hfst⟩

theorem registrar_ok_del_par (datos : Datos) (bd : BaseDatos) (P S : String)
    (c : Option String) (f a : String)
    (hP : P ∈ datos.profesores) (hS : lookupDict datos.profesor_materia P = some S) :
    registrar_asistencia datos bd P S c f a =
      (insertarAsistencia bd P S c f a, Except.ok ()) := by
  rw [registrar_asistencia]
  by_cases hsent : P = "Otro maestro"
  · rw [if_neg (fun h => h hsent)]
  · rw [if_pos hsent, if_neg (fun h => h hP), if_neg (fun h => h hS)]

/-- C2: with the sentinel professor "Otro maestro" ("Other teacher"),
registration skips roster validation entirely: for every roster, store
state, subject, program, date and attended value, the call succeeds and the
record is inserted. -/
theorem registrar_otro_maestro_acepta (datos : Datos) (bd : BaseDatos)
    (materia : String) (carrera : Option String) (fecha asistio : String) :
    registrar_asistencia datos bd "Otro maestro" materia carrera fecha asistio =
      (insertarAsistencia bd "Otro maestro" materia carrera fecha asistio,
       Except.ok ()) := by
  rw [registrar_asistencia, if_neg (fun h => h rfl)]

/-- C4: a professor argument that is neither the sentinel "Otro maestro" nor
a member of the loaded roster is rejected with `UnknownProfessor`, for any
subject, program, date and attended value, and the store is untouched. -/
theorem profesor_desconocido_rechaza (datos : Datos) (bd : BaseDatos)
    (P materia : String) (carrera : Option String) (fecha asistio : String)
    (hsent : P ≠ "Otro maestro") (hP : P ∉ datos.profesores) :
    registrar_asistencia datos bd P materia carrera fecha asistio =
      (bd, Except.error ErrorValidacion.UnknownProfessor) := by
  rw [registrar_asistencia, if_pos hsent, if_pos hP]

theorem profesor_desconocido_rechaza_testigo :
    registrar_asistencia (cargar_datos [("Ana", "Cálculo")] [] []) ⟨[], 1⟩
        "Benito" "Cálculo" none "2024-01-10" "Sí" =
      (⟨[], 1⟩, Except.error ErrorValidacion.UnknownProfessor) :=
  profesor_desconocido_rechaza _ _ _ _ _ _ _ (by decide) (by decide)

/-- C5: whenever registration fails validation (with either error), the
persisted state is exactly what it was before the call: the error paths
return before inserting, so no row is added and nothing else changes. -/
theorem fallo_no_cambia_estado (datos : Datos) (bd : BaseDatos)
    (P materia : String) (carrera : Option String) (fecha asistio : String)
    (e : ErrorValidacion)
    (h : (registrar_asistencia datos bd P materia carrera fecha asistio).2 =
      Except.error e) :
    (registrar_asistencia datos bd P materia carrera fecha asistio).1 = bd := by
  by_cases h1 : P = "Otro maestro"
  · rw [registrar_asistencia, if_neg (fun hh => hh h1)] at h
    exact absurd h (by simp)
  · by_cases h2 : P ∈ datos.profesores
    · by_cases h3 : lookupDict datos.profesor_materia P = some materia
      · rw [registrar_asistencia, if_pos h1, if_neg (fun hh => hh h2),
          if_neg (fun hh => hh h3)] at h
        exact absurd h (by simp)
      · rw [registrar_asistencia, if_pos h1, if_neg (fun hh => hh h2), if_pos h3]
    · rw [registrar_asistencia, if_pos h1, if_pos h2]

theorem fallo_no_cambia_estado_testigo :
    (registrar_asistencia (cargar_datos [("Ana", "Cálculo")] [] [])
        ⟨[⟨1, "Ana", "Cálculo", none, "2024-01-09", "Sí"⟩], 2⟩
        "Ana" "Física" none "2024-01-10" "Sí").1 =
      ⟨[⟨1, "Ana", "Cálculo", none, "2024-01-09", "Sí"⟩], 2⟩ :=
  fallo_no_cambia_estado _ _ _ _ _ _ _ ErrorValidacion.SubjectMismatch rfl

/-- C9: after `eliminar_registros` (DELETE FROM asistencia) every query —
per professor, per subject, and global per program — returns the empty
result set, whatever its arguments. -/
theorem eliminar_todo_vacia_reportes (bd : BaseDatos)
    (profesor materia inicio fin : String) :
    reportePorProfesor (eliminar_registros bd).filas profesor inicio fin = []
    ∧ reportePorMateria (eliminar_registros bd).filas materia inicio fin = []
    ∧ estadisticasGlobales (eliminar_registros bd).filas = [] :=
  ⟨rfl, rfl, rfl⟩

/-- C1: for every (professor, subject) pair present in the loaded roster,
registering that pair on date `d` with attended "Sí" succeeds, and in the
per-professor query over the one-day range [d, d] the matching group's
total-class count and attended-true count each grow by exactly 1 while the
attended-false count is unchanged. -/
theorem registrar_par_valido_incrementa (filasTabla : List (String × String))
    (ms cs : List String) (bd : BaseDatos) (P S : String) (c : Option String)
    (d : String)
    (hS : lookupDict (cargar_datos filasTabla ms cs).profesor_materia P = some S) :
    (registrar_asistencia (cargar_datos filasTabla ms cs) bd P S c d "Sí").2 =
      Except.ok ()
    ∧ contarFila (reportePorProfesor
        (registrar_asistencia (cargar_datos filasTabla ms cs) bd P S c d "Sí").1.filas
        P d d) (c, P, S) =
      ((contarFila (reportePorProfesor bd.filas P d d) (c, P, S)).1 + 1,
       (contarFila (reportePorProfesor bd.filas P d d) (c, P, S)).2.1 + 1,
       (contarFila (reportePorProfesor bd.filas P d d) (c, P, S)).2.2) := by
  have hP : P ∈ (cargar_datos filasTabla ms cs).profesores :=
    (mem_keys_iff_lookup (cargar_datos filasTabla ms cs).profesor_materia P).mpr
      (by rw [hS]; rfl)
  have hreg := registrar_ok_del_par (cargar_datos filasTabla ms cs) bd P S c d "Sí" hP hS
  have hsnd : (registrar_asistencia (cargar_datos filasTabla ms cs) bd P S c d "Sí").2 =
      Except.ok () := by rw [hreg]
  have hfst : (registrar_asistencia (cargar_datos filasTabla ms cs) bd P S c d "Sí").1 =
      insertarAsistencia bd P S c d "Sí" := by rw [hreg]
  refine ⟨hsnd, ?_⟩
  have hfilas : (insertarAsistencia bd P S c d "Sí").filas =
      bd.filas ++ [⟨bd.siguienteId, P, S, c, d, "Sí"⟩] := rfl
  have huno : List.filter
      (fun r : Registro => r.profesor = P ∧ d ≤ r.fecha ∧ r.fecha ≤ d)
      [⟨bd.siguienteId, P, S, c, d, "Sí"⟩] =
      [⟨bd.siguienteId, P, S, c, d, "Sí"⟩] := by
    simp [List.filter_cons, le_refl]
  have hclave : List.filter (fun r : Registro => claveDe r = (c, P, S))
      [⟨bd.siguienteId, P, S, c, d, "Sí"⟩] =
      [⟨bd.siguienteId, P, S, c, d, "Sí"⟩] := by
    simp [List.filter_cons, claveDe]
  have hsi : List.countP (fun r : Registro => r.asistio = "Sí")
      [⟨bd.siguienteId, P, S, c, d, "Sí"⟩] = 1 := rfl
  have hno : List.countP (fun r : Registro => r.asistio = "No")
      [⟨bd.siguienteId, P, S, c, d, "Sí"⟩] = 0 := rfl
  rw [hfst, hfilas]
  simp only [reportePorProfesor, filtroProfesor, contarFila_agregarGrupos,
    List.filter_append, huno, hclave, List.countP_append, List.length_append,
    hsi, hno]
  simp

theorem registrar_par_valido_incrementa_testigo :
    (registrar_asistencia (cargar_datos [("Ana", "Cálculo")] [] [])
        ⟨[], 1⟩ "Ana" "Cálculo" (some "ISC") "2024-01-10" "Sí").2 = Except.ok ()
    ∧ contarFila (reportePorProfesor
        (registrar_asistencia (cargar_datos [("Ana", "Cálculo")] [] [])
          ⟨[], 1⟩ "Ana" "Cálculo" (some "ISC") "2024-01-10" "Sí").1.filas
        "Ana" "2024-01-10" "2024-01-10") (some "ISC", "Ana", "Cálculo") =
      ((contarFila (reportePorProfesor (BaseDatos.mk [] 1).filas
          "Ana" "2024-01-10" "2024-01-10") (some "ISC", "Ana", "Cálculo")).1 + 1,
       (contarFila (reportePorProfesor (BaseDatos.mk [] 1).filas
          "Ana" "2024-01-10" "2024-01-10") (some "ISC", "Ana", "Cálculo")).2.1 + 1,
       (contarFila (reportePorProfesor (BaseDatos.mk [] 1).filas
          "Ana" "2024-01-10" "2024-01-10") (some "ISC", "Ana", "Cálculo")).2.2) :=
  registrar_par_valido_incrementa [("Ana", "Cálculo")] [] [] (BaseDatos.mk [] 1)
    "Ana" "Cálculo" (some "ISC") "2024-01-10" (by decide)

/-- C3 as frozen is false at this input: a roster that contains a professor
literally named "Otro maestro" (the sentinel).  The sentinel check fires
before roster validation, so a subject differing from the roster's assigned
one is NOT rejected with SubjectMismatch. -/
theorem materia_distinta_contraejemplo :
    "Otro maestro" ∈ (cargar_datos [("Otro maestro", "Álgebra")] [] []).profesores
    ∧ lookupDict (cargar_datos [("Otro maestro", "Álgebra")] [] []).profesor_materia
        "Otro maestro" ≠ some "Cálculo"
    ∧ (registrar_asistencia (cargar_datos [("Otro maestro", "Álgebra")] [] [])
        ⟨[], 1⟩ "Otro maestro" "Cálculo" none "2024-01-10" "Sí").2 ≠
      Except.error ErrorValidacion.SubjectMismatch := by
  refine ⟨by decide, by decide, ?_⟩
  have hok : (registrar_asistencia (cargar_datos [("Otro maestro", "Álgebra")] [] [])
      ⟨[], 1⟩ "Otro maestro" "Cálculo" none "2024-01-10" "Sí").2 = Except.ok () := rfl
  rw [hok]
  simp

/-- C3 (amended): for every professor in the loaded roster *other than the
sentinel "Otro maestro"*, registration fails with `SubjectMismatch` if and
only if the given subject is not exactly the roster's single assigned
subject for that professor. -/
theorem materia_distinta_rechaza (filasTabla : List (String × String))
    (ms cs : List String) (bd : BaseDatos) (P S A : String) (c : Option String)
    (f a : String)
    (hP : P ∈ (cargar_datos filasTabla ms cs).profesores)
    (hsent : P ≠ "Otro maestro")
    (hA : lookupDict (cargar_datos filasTabla ms cs).profesor_materia P = some A) :
    (registrar_asistencia (cargar_datos filasTabla ms cs) bd P S c f a).2 =
        Except.error ErrorValidacion.SubjectMismatch ↔ S ≠ A := by
  rw [registrar_asistencia, if_pos hsent, if_neg (fun hh => hh hP)]
  by_cases hSA : S = A
  · subst hSA
    rw [if_neg (fun hh => hh hA)]
    simp
  · have hne : lookupDict (cargar_datos filasTabla ms cs).profesor_materia P ≠
        some S := by
      rw [hA]
      intro hcontra
      exact hSA (Option.some.inj hcontra).symm
    rw [if_pos hne]
    simp [hSA]

theorem materia_distinta_rechaza_testigo :
    (registrar_asistencia (cargar_datos [("Ana", "Cálculo")] [] []) ⟨[], 1⟩
        "Ana" "Física" none "2024-01-10" "No").2 =
      Except.error ErrorValidacion.SubjectMismatch :=
  (materia_distinta_rechaza [("Ana", "Cálculo")] [] [] ⟨[], 1⟩ "Ana" "Física"
    "Cálculo" none "2024-01-10" "No" (by decide) (by decide) (by decide)).mpr
    (by decide)

/-- C6: in the global per-program statistics, every program with n > 0
records gets exactly the row (program, n, round(100*k/n, 2)) where k counts
its attended-true records, and a program with no records gets no row at all
(empty result, not an error). -/
theorem tasa_cumplimiento_global (bd : BaseDatos) (c : Option String) :
    (0 < (bd.filas.filter (fun r => r.carrera = c)).length →
      (c, (bd.filas.filter (fun r => r.carrera = c)).length,
        round2 (((bd.filas.filter (fun r => r.carrera = c)).countP
            (fun r => r.asistio = "Sí") : ℚ) * 100 /
          (((bd.filas.filter (fun r => r.carrera = c)).length : ℚ)))) ∈
        estadisticasGlobales bd.filas)
    ∧ ((bd.filas.filter (fun r => r.carrera = c)).length = 0 →
        ∀ fila ∈ estadisticasGlobales bd.filas, fila.1 ≠ c) := by
  constructor
  · intro hn
    rw [estadisticasGlobales]
    have hc : c ∈ clavesUnicas (bd.filas.map (fun r => r.carrera)) := by
      rw [mem_clavesUnicas]
      obtain ⟨r, hr⟩ := List.exists_mem_of_ne_nil _ (List.length_pos.mp hn)
      obtain ⟨hrf, hrc⟩ := List.mem_filter.mp hr
      exact List.mem_map.mpr ⟨r, hrf, of_decide_eq_true hrc⟩
    exact List.mem_map_of_mem _ hc
  · intro h0 fila hfila hcfila
    rw [estadisticasGlobales] at hfila
    obtain ⟨c', hc', hfc⟩ := List.mem_map.mp hfila
    have hcc : c' = c := by
      rw [← hfc] at hcfila
      exact hcfila
    subst hcc
    rw [mem_clavesUnicas] at hc'
    obtain ⟨r, hrf, hrc⟩ := List.mem_map.mp hc'
    have hmem : r ∈ bd.filas.filter (fun r => r.carrera = c') :=
      List.mem_filter.mpr ⟨hrf, by simp [hrc]⟩
    rw [List.length_eq_zero] at h0
    rw [h0] at hmem
    exact absurd hmem (List.not_mem_nil r)

/-- A one-row store used to instantiate the global-statistics theorem. -/
def bdEjemplo : BaseDatos :=
  ⟨[⟨1, "Ana", "Cálculo", some "ISC", "2024-01-10", "Sí"⟩], 2⟩

theorem tasa_cumplimiento_global_testigo :
    ((some "ISC" : Option String), 1, round2 ((1 : ℚ) * 100 / (1 : ℚ))) ∈
      estadisticasGlobales bdEjemplo.filas := by
  have h := (tasa_cumplimiento_global bdEjemplo (some "ISC")).1 (by decide)
  have h1 : (bdEjemplo.filas.filter (fun r => r.carrera = some "ISC")).length = 1 := rfl
  have h2 : (bdEjemplo.filas.filter (fun r => r.carrera = some "ISC")).countP
      (fun r => r.asistio = "Sí") = 1 := rfl
  rw [h1, h2] at h
  simpa using h

/-- C7: a stored record enters the per-professor query's result set iff its
professor equals the queried name and its ISO date string lies within
[inicio, fin] in lexicographic order, inclusive at both ends; the same rule
with the subject field governs the per-subject query. -/
theorem filtro_fecha_inclusivo (filas : List Registro) (r : Registro)
    (nombre inicio fin : String) :
    (r ∈ filtroProfesor filas nombre inicio fin ↔
      r ∈ filas ∧ r.profesor = nombre ∧ inicio ≤ r.fecha ∧ r.fecha ≤ fin)
    ∧ (r ∈ filtroMateria filas nombre inicio fin ↔
      r ∈ filas ∧ r.materia = nombre ∧ inicio ≤ r.fecha ∧ r.fecha ≤ fin) := by
  constructor <;> simp [filtroProfesor, filtroMateria, List.mem_filter, and_assoc]

/-- C8: a PDF-export button press whose aggregate query returned zero rows
produces no document and signals the empty result instead, in all three
report tabs; a document is produced only when at least one row exists. -/
theorem exportar_sin_filas_no_genera (bd : BaseDatos) (prof mat inicio fin : String) :
    (reportePorProfesor bd.filas prof inicio fin = [] →
      reporteProfesorPDF bd prof inicio fin = ResultadoExportacion.sinDatos)
    ∧ (∀ nombre filasPdf, reporteProfesorPDF bd prof inicio fin =
        ResultadoExportacion.generado nombre filasPdf →
        reportePorProfesor bd.filas prof inicio fin ≠ [])
    ∧ (reportePorMateria bd.filas mat inicio fin = [] →
      reporteMateriaPDF bd mat inicio fin = ResultadoExportacion.sinDatos)
    ∧ (∀ nombre filasPdf, reporteMateriaPDF bd mat inicio fin =
        ResultadoExportacion.generado nombre filasPdf →
        reportePorMateria bd.filas mat inicio fin ≠ [])
    ∧ (estadisticasGlobales bd.filas = [] →
      reporteGlobalPDF bd = ResultadoExportacion.sinDatos)
    ∧ (∀ nombre filasPdf, reporteGlobalPDF bd =
        ResultadoExportacion.generado nombre filasPdf →
        estadisticasGlobales bd.filas ≠ []) := by
  refine ⟨?_, ?_, ?_, ?_, ?_, ?_⟩
  · intro h
    rw [reporteProfesorPDF, exportarReporte, h]
    rfl
  · intro nombre filasPdf h hnil
    rw [reporteProfesorPDF, exportarReporte, hnil] at h
    exact absurd h (by simp)
  · intro h
    rw [reporteMateriaPDF, exportarReporte, h]
    rfl
  · intro nombre filasPdf h hnil
    rw [reporteMateriaPDF, exportarReporte, hnil] at h
    exact absurd h (by simp)
  · intro h
    rw [reporteGlobalPDF, exportarReporte, h]
    rfl
  · intro nombre filasPdf h hnil
    rw [reporteGlobalPDF, exportarReporte, hnil] at h
    exact absurd h (by simp)

theorem exportar_sin_filas_no_genera_testigo :
    reporteProfesorPDF ⟨[], 1⟩ "Ana" "2024-01-01" "2024-01-31" =
      ResultadoExportacion.sinDatos :=
  (exportar_sin_filas_no_genera ⟨[], 1⟩ "Ana" "Cálculo" "2024-01-01" "2024-01-31").1 rfl

/-- C10: the roster's professor list is exactly the key list of the
professor→subject map — so every roster professor has an assigned subject —
and when the many-to-many `profesor_materia` table relates one professor to
several subjects, the dict build silently keeps only the last assignment row
read. -/
theorem roster_claves_ultima_gana (filasTabla : List (String × String))
    (ms cs : List String) (p : String) :
    (cargar_datos filasTabla ms cs).profesores =
      (cargar_datos filasTabla ms cs).profesor_materia.map Prod.fst
    ∧ (p ∈ (cargar_datos filasTabla ms cs).profesores ↔
        ∃ s, lookupDict (cargar_datos filasTabla ms cs).profesor_materia p = some s)
    ∧ lookupDict (cargar_datos filasTabla ms cs).profesor_materia p =
        ultimaAsignacion filasTabla p := by
  refine ⟨rfl, ?_, lookupDict_buildDict filasTabla p⟩
  rw [show (cargar_datos filasTabla ms cs).profesores =
      (cargar_datos filasTabla ms cs).profesor_materia.map Prod.fst from rfl,
    mem_keys_iff_lookup, Option.isSome_iff_exists]
